import Mathlib

/-!
Verification development for the security-intelligence engine
(`src/core/security_intelligence.py` and `src/security/threat_analyzer.py`).

Python floats are modelled as rationals (`ℚ`), Python ints as `ℤ` or `ℕ`,
`datetime` values as rational epoch seconds (`datetime.hour` becomes
`hour_of`, and `datetime` subtraction becomes subtraction of seconds).
Python dicts keyed by strings are modelled as ordered association lists with
Python's assignment semantics (replace the existing key in place, else append),
Python sets as first-occurrence-deduplicated lists.

The regular-expression engine (`re`) is third-party code; calls into it are
modelled by oracle parameters: `count_matches pattern text` stands for the
number of matches `re.finditer(pattern, text, re.IGNORECASE)` yields, and
`re_search pattern text` for the truthiness of
`re.search(pattern, text, re.IGNORECASE)`.  Likewise `ipaddress.ip_address`
is abstracted by an oracle `ip_parse : String → Option Bool` returning
`is_private` on success and `none` on a parse failure, `datetime.now()` by an
explicit `now : ℚ` parameter, and Python's builtin `hash` on strings by an
oracle `hash_ip : String → ℕ`.  Whenever a concrete theorem instantiates one
of these oracles, the instantiation agrees with the real library behaviour on
the concrete inputs involved, which can be checked by hand.
-/

namespace SecIntel

/-- Threat levels (`ThreatLevel` enum of `security_intelligence.py`). -/
inductive ThreatLevel where
  | minimal
  | low
  | medium
  | high
  | critical
  | catastrophic
deriving DecidableEq, Repr

/-- The ordering of threat levels used by the specification
(minimal < low < medium < high < critical < catastrophic). -/
def ThreatLevel.rank : ThreatLevel → ℕ
  | .minimal => 0
  | .low => 1
  | .medium => 2
  | .high => 3
  | .critical => 4
  | .catastrophic => 5

/-- Attack vectors (`AttackVector` enum of `security_intelligence.py`). -/
inductive AttackVector where
  | malware
  | phishing
  | ransomware
  | apt
  | ddos
  | sql_injection
  | xss
  | privilege_escalation
  | data_exfiltration
  | insider_threat
  | social_engineering
  | zero_day
deriving DecidableEq, Repr

/-- Response actions (`ResponseAction` enum of `security_intelligence.py`). -/
inductive ResponseAction where
  | monitor
  | alert
  | block
  | isolate
  | quarantine
  | emergency_shutdown
  | forensic_capture
  | user_notification
deriving DecidableEq, Repr

/-- `ThreatIndicator` dataclass of `security_intelligence.py`
(the optional `geographic_info` and `related_campaigns` payloads, which no
analysed code path reads, are omitted). -/
structure ThreatIndicator where
  indicator_type : String
  value : String
  confidence : ℚ
  threat_types : List AttackVector
  source : String
  first_seen : ℚ
  last_seen : ℚ
  reputation_score : ℚ
deriving DecidableEq, Repr

/-- One entry of an incident's `attack_timeline` list.  In the source the
entries are dicts holding a timestamp, an event label and further
presentational detail; the detail payload is not read anywhere and is
omitted. -/
structure TimelineEntry where
  timestamp : ℚ
  event : String
deriving DecidableEq, Repr

/-- `SecurityIncident` dataclass of `security_intelligence.py`. -/
structure SecurityIncident where
  incident_id : String
  threat_level : ThreatLevel
  attack_vector : AttackVector
  title : String
  description : String
  indicators : List ThreatIndicator
  affected_assets : List String
  attack_timeline : List TimelineEntry
  recommended_actions : List ResponseAction
  confidence_score : ℚ
  created_at : ℚ
  updated_at : ℚ
  status : String := "new"
deriving DecidableEq, Repr

/-- `NetworkEvent` dataclass of `security_intelligence.py`.  The dataclass
performs no validation whatsoever: every field accepts any value of its type,
in particular negative `bytes_transferred` and `packets_count`. -/
structure NetworkEvent where
  timestamp : ℚ
  source_ip : String
  destination_ip : String
  source_port : ℤ
  destination_port : ℤ
  protocol : String
  bytes_transferred : ℤ
  packets_count : ℤ
  duration : ℚ
  status : String
  user_agent : Option String := none
  http_method : Option String := none
  uri : Option String := none
deriving DecidableEq, Repr

/-- `datetime.hour` for a timestamp given in epoch seconds. -/
def hour_of (t : ℚ) : ℤ := (⌊t / 3600⌋) % 24

/-- Python `needle in haystack` on strings (contiguous substring test). -/
def str_contains (haystack needle : String) : Bool :=
  decide (needle.data <:+: haystack.data)

/-- Python `s.lower()` restricted to ASCII, which is all the engine's
keyword tables use. -/
def py_lower (s : String) : String := ⟨s.data.map Char.toLower⟩

/-- Python `s.startswith(pre)`. -/
def py_startswith (s pre : String) : Bool := decide (pre.data <+: s.data)

/-- `list(dict.fromkeys(l))`-style first-occurrence deduplication; this is the
model of iterating a Python `set` built from `l` (and of `list(set(l))`). -/
def first_occs {α : Type} [DecidableEq α] : List α → List α → List α
  | _, [] => []
  | seen, a :: l =>
    if a ∈ seen then first_occs seen l else a :: first_occs (a :: seen) l

/-- Python dict assignment `d[k] = v`: replace the first (unique) binding of
`k` in place, else append a new binding. -/
def dict_insert {α : Type} : List (String × α) → String → α → List (String × α)
  | [], k, v => [(k, v)]
  | (k', v') :: m, k, v =>
    if k' = k then (k, v) :: m else (k', v') :: dict_insert m k v

/-- Python dict lookup `d.get(k)` on the association-list model. -/
def dict_lookup {α : Type} : List (String × α) → String → Option α
  | [], _ => none
  | (k', v') :: m, k => if k' = k then some v' else dict_lookup m k

/-- Python `max(l)` for a nonempty list (`0` as an unused default for `[]`). -/
def max_list : List ℚ → ℚ
  | [] => 0
  | a :: l => l.foldl max a

/-- Python `min(l)` for a nonempty list (`0` as an unused default for `[]`). -/
def min_list : List ℚ → ℚ
  | [] => 0
  | a :: l => l.foldl min a

/-- Python `max(l, key=f)` seeded with `b`: the first element attaining the
maximal key wins. -/
def py_max_by {α : Type} (f : α → ℕ) : α → List α → α
  | b, [] => b
  | b, x :: xs => py_max_by f (if f x > f b then x else b) xs

/-- Python `l[-n:]`. -/
def last_n {α : Type} (l : List α) (n : ℕ) : List α := l.drop (l.length - n)

/-- `self.detection_thresholds` of `SecurityIntelligenceEngine.__init__`
(a dict with exactly these five keys; `MINIMAL` has no entry). -/
def detection_thresholds : List (ThreatLevel × ℚ) :=
  [(.low, 3/10), (.medium, 1/2), (.high, 7/10), (.critical, 17/20),
   (.catastrophic, 19/20)]

/-- Lookup in `detection_thresholds`; every level the code queries is
present, so the `0` default is never used. -/
def threshold_of (l : ThreatLevel) : ℚ :=
  ((detection_thresholds.find? (fun p => p.1 = l)).map (·.2)).getD 0

/-- `_calculate_threat_level`: note that the final `else` branch returns
`LOW`, so the `LOW` entry of `detection_thresholds` is never consulted and
`MINIMAL` is never returned. -/
def calculate_threat_level (confidence : ℚ) : ThreatLevel :=
  if confidence ≥ threshold_of .catastrophic then .catastrophic
  else if confidence ≥ threshold_of .critical then .critical
  else if confidence ≥ threshold_of .high then .high
  else if confidence ≥ threshold_of .medium then .medium
  else .low

/-- The pattern table returned by `_load_malicious_patterns` (a dict in
insertion order; the pattern strings are the verbatim regex sources). -/
def malicious_patterns : List (String × List String) :=
  [("sql_injection",
    ["(\\%27)|(\\\x27)|(\\-\\-)|(\\%23)|(#)",
     "((\\%3D)|(=))[^\\n]*((\\%27)|(\\\x27)|(\\-\\-)|(\\%3B)|(;))",
     "union.*select",
     "insert.*into",
     "delete.*from",
     "drop.*table"]),
   ("xss",
    ["<script[^>]*>.*?</script>",
     "javascript:",
     "on\\w+\\s*=",
     "<iframe[^>]*>.*?</iframe>",
     "document\\.cookie",
     "window\\.location"]),
   ("command_injection",
    [";\\s*(ls|dir|cat|type|more|less)",
     "&\\s*(ls|dir|cat|type|more|less)",
     "\\|\\s*(ls|dir|cat|type|more|less)",
     "(\x60|\\\\$\\\\()",
     "(nc|netcat|wget|curl)"]),
   ("suspicious_activity",
    ["password.*brute.*force",
     "failed.*login.*attempts",
     "privilege.*escalation",
     "lateral.*movement",
     "data.*exfiltration",
     "backdoor.*access"])]

/-- `_check_malicious_patterns`.  The source sets
`matches = re.finditer(pattern, text, re.IGNORECASE)` and tests
`if matches:` — a `finditer` iterator object is always truthy, so the guard
succeeds for the *first* pattern of every category and the inner `break`
fires immediately.  Hence every category contributes exactly one pair whose
confidence is `min(0.9, 0.3 + 0.2 * match_count)` where `match_count` is the
number of matches of the category's first pattern (possibly `0`). -/
def check_malicious_patterns (count_matches : String → String → ℕ)
    (text : String) : List (String × ℚ) :=
  malicious_patterns.filterMap (fun cp =>
    match cp.2 with
    | [] => none
    | p :: _ => some (cp.1, min (9/10) (3/10 + (count_matches p text : ℚ) * (2/10))))

/-- The `attack_vector_map.get(pattern_type, AttackVector.MALWARE)` table of
`_check_threat_indicators`. -/
def attack_vector_map (pattern_type : String) : AttackVector :=
  if pattern_type = "sql_injection" then .sql_injection
  else if pattern_type = "xss" then .xss
  else if pattern_type = "command_injection" then .privilege_escalation
  else .malware

/-- `self.threat_intel_db` (a dict of sets; sets are modelled as
first-occurrence lists, only membership and insertion are used). -/
structure ThreatIntelDb where
  malicious_ips : List String := []
  malicious_domains : List String := []
  malware_hashes : List String := []
  phishing_urls : List String := []
deriving DecidableEq, Repr

/-- Python `set.add`. -/
def set_add (s : List String) (x : String) : List String :=
  if x ∈ s then s else s ++ [x]

/-- `self.behavioral_baselines` as set by `_initialize_behavioral_analysis`. -/
structure BehavioralBaselines where
  normal_login_hours : ℤ × ℤ := (8, 18)
  max_failed_logins : ℤ := 3
  normal_data_transfer_mb : ℤ := 100
  max_concurrent_sessions : ℤ := 5
  normal_geo_locations : List String := ["FR", "EU"]
  suspicious_user_agents : List String := ["sqlmap", "nikto", "nmap", "masscan", "zap"]
deriving Repr

/-- The mutable state of `SecurityIntelligenceEngine` that the analysed
methods read or write. -/
structure EngineState where
  threat_intel_db : ThreatIntelDb := {}
  indicators_cache : List (String × ThreatIndicator) := []
  behavioral_baselines : BehavioralBaselines := {}
  incidents_history : List SecurityIncident := []
  network_events : List NetworkEvent := []
  active_threats : List (String × SecurityIncident) := []
deriving Repr

/-- `_check_threat_indicators` (source-IP hit, destination-IP hit, then the
URI pattern scan; `if event.uri:` is Python truthiness, so an empty URI is
skipped). -/
def check_threat_indicators (db : ThreatIntelDb)
    (count_matches : String → String → ℕ) (event : NetworkEvent) :
    List ThreatIndicator :=
  (if event.source_ip ∈ db.malicious_ips then
    [{ indicator_type := "ip", value := event.source_ip, confidence := 9/10,
       threat_types := [.malware], source := "threat_intel_db",
       first_seen := event.timestamp, last_seen := event.timestamp,
       reputation_score := 1/10 }]
   else [])
  ++ (if event.destination_ip ∈ db.malicious_ips then
    [{ indicator_type := "ip", value := event.destination_ip, confidence := 8/10,
       threat_types := [.data_exfiltration], source := "threat_intel_db",
       first_seen := event.timestamp, last_seen := event.timestamp,
       reputation_score := 2/10 }]
   else [])
  ++ (match event.uri with
      | none => []
      | some u =>
        if u = "" then []
        else
          (check_malicious_patterns count_matches u).map (fun pc =>
            { indicator_type := "url_pattern", value := u, confidence := pc.2,
              threat_types := [attack_vector_map pc.1], source := "pattern_detection",
              first_seen := event.timestamp, last_seen := event.timestamp,
              reputation_score := 1 - pc.2 }))

/-- `_get_ip_geolocation`, with `ipaddress.ip_address` abstracted by
`ip_parse` (`some is_private` on success, `none` on a raised exception). -/
def get_ip_geolocation (ip_parse : String → Option Bool) (ip : String) :
    Option String :=
  match ip_parse ip with
  | none => none
  | some isPriv =>
    if isPriv then some "PRIVATE"
    else if py_startswith ip "185.220" then some "RU"
    else some "FR"

/-- `_get_recent_events_from_ip`. -/
def get_recent_events_from_ip (now : ℚ) (st : EngineState) (ip : String)
    (minutes : ℚ) : List NetworkEvent :=
  let cutoff := now - minutes * 60
  (last_n st.network_events 1000).filter
    (fun e => e.source_ip = ip ∧ e.timestamp > cutoff)

/-- `_detect_behavioral_anomalies` (the five checks, in source order; all
geolocation strings the code can produce are nonempty, so the
`if source_geo` truthiness test reduces to the `none`/`some` split). -/
def detect_behavioral_anomalies (ip_parse : String → Option Bool) (now : ℚ)
    (st : EngineState) (event : NetworkEvent) : List String :=
  let bb := st.behavioral_baselines
  (if hour_of event.timestamp < bb.normal_login_hours.1 ∨
      hour_of event.timestamp > bb.normal_login_hours.2 then
    ["activity_outside_normal_hours"] else [])
  ++ (if event.bytes_transferred > bb.normal_data_transfer_mb * 1024 * 1024 then
    ["excessive_data_transfer"] else [])
  ++ (match get_ip_geolocation ip_parse event.source_ip with
      | none => []
      | some g => if g ∈ bb.normal_geo_locations then [] else
          ["suspicious_geographic_location"])
  ++ (match event.user_agent with
      | none => []
      | some ua =>
        if ua = "" then []
        else if bb.suspicious_user_agents.any
            (fun sua => str_contains (py_lower ua) (py_lower sua)) then
          ["suspicious_user_agent"] else [])
  ++ (if (get_recent_events_from_ip now st event.source_ip 5).length > 50 then
    ["high_frequency_requests"] else [])

/-- `_generate_recommended_actions`; `list(set(actions))` is modelled as
first-occurrence deduplication. -/
def generate_recommended_actions (threat_level : ThreatLevel)
    (attack_vector : AttackVector) : List ResponseAction :=
  first_occs []
    ([.monitor, .alert]
     ++ (if threat_level = .high ∨ threat_level = .critical ∨
            threat_level = .catastrophic then
          [.block, .forensic_capture] else [])
     ++ (if threat_level = .critical ∨ threat_level = .catastrophic then
          [.isolate, .user_notification] else [])
     ++ (if threat_level = .catastrophic then [.emergency_shutdown] else [])
     ++ (if attack_vector = .malware then [.quarantine]
         else if attack_vector = .data_exfiltration then [.block]
         else if attack_vector = .ransomware then
          [.isolate, .emergency_shutdown]
         else []))

/-- `_generate_incident_description` (numeric interpolation rendered with
`toString`). -/
def generate_incident_description (event : NetworkEvent)
    (indicators : List ThreatIndicator) : String :=
  String.intercalate "\n"
    (["Événement réseau suspect détecté à " ++ toString event.timestamp ++ ".",
      "Source: " ++ event.source_ip ++ ":" ++ toString event.source_port,
      "Destination: " ++ event.destination_ip ++ ":" ++
        toString event.destination_port,
      "Protocole: " ++ event.protocol,
      "Données transférées: " ++ toString event.bytes_transferred ++ " bytes"]
     ++ (match event.uri with
         | some u => if u = "" then [] else ["URI: " ++ u]
         | none => [])
     ++ (match event.user_agent with
         | some ua => if ua = "" then [] else ["User-Agent: " ++ ua]
         | none => [])
     ++ (if indicators = [] then [] else
          "\nIndicateurs de menace détectés:" ::
            indicators.map (fun i =>
              "- " ++ i.indicator_type ++ ": " ++ i.value ++
                " (confiance: " ++ toString i.confidence ++ ")")))

/-- `_create_incident_from_network_event` (only called with a nonempty
indicator list, so the `0` default of `max_list` is never used;
`hash(event.source_ip) % 10000` is rendered through the `hash_ip` oracle and
the `%Y%m%d%H%M%S` timestamp tag through `toString now`). -/
def create_incident_from_network_event (now : ℚ) (hash_ip : String → ℕ)
    (event : NetworkEvent) (indicators : List ThreatIndicator) :
    SecurityIncident :=
  let max_confidence := max_list (indicators.map (·.confidence))
  let threat_level := calculate_threat_level max_confidence
  let attack_vectors := indicators.flatMap (·.threat_types)
  let primary_vector :=
    match first_occs [] attack_vectors with
    | [] => AttackVector.malware
    | d :: ds => py_max_by (fun v => attack_vectors.count v) d ds
  { incident_id := "INC-" ++ toString now ++ "-" ++
      toString (hash_ip event.source_ip % 10000),
    threat_level := threat_level,
    attack_vector := primary_vector,
    title := "Activité suspecte détectée depuis " ++ event.source_ip,
    description := generate_incident_description event indicators,
    indicators := indicators,
    affected_assets := [event.destination_ip],
    attack_timeline := [{ timestamp := event.timestamp,
                          event := "Network event detected" }],
    recommended_actions := generate_recommended_actions threat_level primary_vector,
    confidence_score := max_confidence,
    created_at := now,
    updated_at := now }

/-- `_create_incident_from_anomalies`. -/
def create_incident_from_anomalies (now : ℚ) (hash_ip : String → ℕ)
    (event : NetworkEvent) (anomalies : List String) : SecurityIncident :=
  let confidence := min (9/10) ((anomalies.length : ℚ) * (2/10))
  let threat_level := calculate_threat_level confidence
  let indicators := anomalies.map (fun anomaly =>
    { indicator_type := "behavioral_anomaly", value := anomaly,
      confidence := confidence, threat_types := [AttackVector.insider_threat],
      source := "behavioral_analysis", first_seen := event.timestamp,
      last_seen := event.timestamp,
      reputation_score := 1 - confidence : ThreatIndicator })
  { incident_id := "ANO-" ++ toString now ++ "-" ++
      toString (hash_ip event.source_ip % 10000),
    threat_level := threat_level,
    attack_vector := .insider_threat,
    title := "Anomalies comportementales détectées pour " ++ event.source_ip,
    description := "Anomalies détectées: " ++ String.intercalate ", " anomalies,
    indicators := indicators,
    affected_assets := [event.source_ip, event.destination_ip],
    attack_timeline := [{ timestamp := event.timestamp,
                          event := "Behavioral anomalies detected" }],
    recommended_actions := generate_recommended_actions threat_level .insider_threat,
    confidence_score := confidence,
    created_at := now,
    updated_at := now }

/-- `_create_coordinated_attack_incident`. -/
def create_coordinated_attack_incident (now : ℚ) (hash_ip : String → ℕ)
    (source_ip : String) (events : List NetworkEvent) : SecurityIncident :=
  let unique_destinations := first_occs [] (events.map (·.destination_ip))
  let total_bytes := (events.map (·.bytes_transferred)).sum
  let confidence := min (8/10) ((events.length : ℚ) / 20)
  let threat_level := calculate_threat_level confidence
  let vt :=
    if unique_destinations.length > 5 then
      (AttackVector.ddos, "Attaque DDoS détectée depuis " ++ source_ip)
    else if total_bytes > 100 * 1024 * 1024 then
      (AttackVector.data_exfiltration,
       "Exfiltration de données potentielle depuis " ++ source_ip)
    else
      (AttackVector.apt, "Activité APT suspecte depuis " ++ source_ip)
  let indicators : List ThreatIndicator :=
    [{ indicator_type := "coordinated_attack",
       value := source_ip ++ "_campaign",
       confidence := confidence, threat_types := [vt.1],
       source := "correlation_analysis",
       first_seen := min_list (events.map (·.timestamp)),
       last_seen := max_list (events.map (·.timestamp)),
       reputation_score := 1/10 }]
  { incident_id := "CAM-" ++ toString now ++ "-" ++
      toString (hash_ip source_ip % 10000),
    threat_level := threat_level,
    attack_vector := vt.1,
    title := vt.2,
    description := "Campagne d\x27attaque coordonnée détectée: " ++
      toString events.length ++ " événements vers " ++
      toString unique_destinations.length ++ " destinations en " ++
      toString (max_list (events.map (·.timestamp)) -
        min_list (events.map (·.timestamp))) ++ " secondes",
    indicators := indicators,
    affected_assets := unique_destinations,
    attack_timeline := (events.take 10).map (fun e =>
      { timestamp := e.timestamp,
        event := "Request to " ++ e.destination_ip ++ ":" ++
          toString e.destination_port }),
    recommended_actions := generate_recommended_actions threat_level vt.1,
    confidence_score := confidence,
    created_at := now,
    updated_at := now }

/-- `_correlate_events`: group the incoming batch by source IP (Python dict
insertion order = first-occurrence order, each group keeping the original
event order), and raise one coordinated-attack incident per group with more
than 10 events spanning strictly less than 300 seconds. -/
def correlate_events (now : ℚ) (hash_ip : String → ℕ)
    (events : List NetworkEvent) : List SecurityIncident :=
  (first_occs [] (events.map (·.source_ip))).filterMap (fun ip =>
    let ip_events := events.filter (fun e => e.source_ip = ip)
    if ip_events.length > 10 ∧
        max_list (ip_events.map (·.timestamp)) -
          min_list (ip_events.map (·.timestamp)) < 300 then
      some (create_coordinated_attack_incident now hash_ip ip ip_events)
    else none)

/-- The guard of the voice-alert branch of `_process_security_incident`
(`incident.threat_level in [ThreatLevel.CRITICAL, ThreatLevel.CATASTROPHIC]`). -/
def voice_alert_triggered (incident : SecurityIncident) : Bool :=
  incident.threat_level = ThreatLevel.critical ∨
    incident.threat_level = ThreatLevel.catastrophic

/-- The state effect of `_process_security_incident`: append to
`incidents_history` and assign `active_threats[incident.incident_id]`.
No lookup of existing incidents by entity or attack vector is performed;
the callbacks only notify external collaborators. -/
def process_security_incident (st : EngineState) (incident : SecurityIncident) :
    EngineState :=
  { st with
    incidents_history := st.incidents_history ++ [incident],
    active_threats := dict_insert st.active_threats incident.incident_id incident }

/-- `analyze_network_traffic`: extend the event history, then per event
collect an IOC incident (when indicators are found) and an anomaly incident
(when anomalies are found), append the correlation incidents, and finally
process every collected incident.  Returns the incident list and the
resulting state.  No event is validated or rejected anywhere along the
way. -/
def analyze_network_traffic (count_matches : String → String → ℕ)
    (ip_parse : String → Option Bool) (hash_ip : String → ℕ) (now : ℚ)
    (st : EngineState) (events : List NetworkEvent) :
    List SecurityIncident × EngineState :=
  let st1 := { st with network_events := st.network_events ++ events }
  let per_event := events.flatMap (fun e =>
    (let inds := check_threat_indicators st1.threat_intel_db count_matches e
     if inds = [] then []
     else [create_incident_from_network_event now hash_ip e inds])
    ++
    (let anomalies := detect_behavioral_anomalies ip_parse now st1 e
     if anomalies = [] then []
     else [create_incident_from_anomalies now hash_ip e anomalies]))
  let incidents := per_event ++ correlate_events now hash_ip events
  (incidents, incidents.foldl process_security_incident st1)

/-- `update_threat_intelligence`: route each indicator into the matching
`threat_intel_db` set, then assign `indicators_cache[indicator.value] =
indicator` — a plain overwrite, no comparison with any stored entry. -/
def update_threat_intelligence (st : EngineState)
    (indicators : List ThreatIndicator) : EngineState :=
  indicators.foldl (fun st i =>
    let db := st.threat_intel_db
    let db :=
      if i.indicator_type = "ip" then
        { db with malicious_ips := set_add db.malicious_ips i.value }
      else if i.indicator_type = "domain" then
        { db with malicious_domains := set_add db.malicious_domains i.value }
      else if i.indicator_type = "hash" then
        { db with malware_hashes := set_add db.malware_hashes i.value }
      else db
    { st with
      threat_intel_db := db,
      indicators_cache := dict_insert st.indicators_cache i.value i }) st

/-- The `intent_risk_map.get(intent, 0.0)` table of
`_calculate_text_risk_score`. -/
def intent_risk_map (intent : String) : ℚ :=
  if intent = "incident_report" then 3/10
  else if intent = "vulnerability_inquiry" then 2/10
  else if intent = "threat_intelligence" then 1/10
  else if intent = "technical_support" then 1/10
  else if intent = "general_inquiry" then 0
  else 0

/-- The `suspicious_terms` list of `_calculate_text_risk_score`. -/
def suspicious_terms : List String :=
  ["backdoor", "rootkit", "exploit", "zero-day", "pwned",
   "botnet", "ransomware", "keylogger", "phishing"]

/-- `_calculate_text_risk_score`. -/
def calculate_text_risk_score (text : String)
    (malicious_pattern_hits : List (String × ℚ)) (intent : String) : ℚ :=
  let base_risk : ℚ := 0
  let base_risk :=
    if malicious_pattern_hits = [] then base_risk
    else base_risk + max_list (malicious_pattern_hits.map (·.2)) * (6/10)
  let base_risk := base_risk + intent_risk_map intent
  let suspicious_count :=
    (suspicious_terms.filter (fun t => str_contains (py_lower text) t)).length
  let base_risk := base_risk + min (3/10) ((suspicious_count : ℚ) * (1/10))
  min 1 base_risk

/-- The risk score `analyze_text_input` attaches to a text: the composition
of `_check_malicious_patterns` and `_calculate_text_risk_score` (the intent
string is universally quantified over in the theorems, which covers every
output of `_classify_security_intent`). -/
def text_risk_score (count_matches : String → String → ℕ) (text : String)
    (intent : String) : ℚ :=
  calculate_text_risk_score text (check_malicious_patterns count_matches text)
    intent

end SecIntel

namespace ThreatAnalyzer

/-- `ThreatIndicator` dataclass of `security/threat_analyzer.py`. -/
structure ThreatIndicator where
  type : String
  value : String
  confidence : ℚ
  source : String
  first_seen : ℚ
  last_seen : ℚ
  tags : List String
  severity : String
deriving DecidableEq, Repr

/-- `_parse_threat_feed`, with `content.strip().split('\n')` supplied as the
line list and `_detect_indicator_type` (a stack of anchored regexes over the
line) abstracted by the `detect` oracle.  Every recognised line is stored by
plain dict assignment `self.indicators_db[line] = indicator` with the fixed
feed confidence `0.8` — any previously stored entry is overwritten. -/
def parse_threat_feed (detect : String → Option String) (now : ℚ)
    (db : List (String × ThreatIndicator)) (source : String)
    (lines : List String) : List (String × ThreatIndicator) :=
  lines.foldl (fun db line =>
    let line := line.trim
    if line = "" ∨ SecIntel.py_startswith line "#" then db
    else
      match detect line with
      | none => db
      | some ty =>
        SecIntel.dict_insert db line
          { type := ty, value := line, confidence := 8/10, source := source,
            first_seen := now, last_seen := now, tags := ["threat_feed"],
            severity := "medium" }) db

/-- The `severity_weights.get(severity, 1)` table of `analyze_indicators`. -/
def severity_weights (severity : String) : ℚ :=
  if severity = "low" then 1
  else if severity = "medium" then 3
  else if severity = "high" then 5
  else if severity = "critical" then 10
  else 1

/-- The `suspicious_patterns` regex list of `_analyze_behavior` (verbatim
sources, braces written as escapes). -/
def suspicious_patterns : List String :=
  ["\\.tmp$",
   "[0-9]\x7b1,3\x7d\\.[0-9]\x7b1,3\x7d\\.[0-9]\x7b1,3\x7d\\.[0-9]\x7b1,3\x7d",
   "(cmd|powershell|bash)",
   "(download|upload|connect)",
   "[a-fA-F0-9]\x7b32,64\x7d"]

/-- The record `_analyze_behavior` returns. -/
structure BehaviorResult where
  indicator : String
  suspicious : Bool
  score : ℚ
  patterns : List String
  confidence : ℚ
deriving DecidableEq, Repr

/-- `_analyze_behavior` (`re.search` truthiness abstracted by `re_search`). -/
def analyze_behavior (re_search : String → String → Bool) (indicator : String) :
    BehaviorResult :=
  let matched := suspicious_patterns.filter (fun p => re_search p indicator)
  let suspicion_score : ℚ := (matched.length : ℚ) * 10
  { indicator := indicator,
    suspicious := decide (suspicion_score > 0),
    score := suspicion_score,
    patterns := matched,
    confidence := min (suspicion_score / 50) 1 }

/-- `_load_mitre_mapping`. -/
def mitre_mapping : List (String × List String) :=
  [("powershell", ["T1059.001"]),
   ("cmd", ["T1059.003"]),
   ("injection", ["T1055"]),
   ("discovery", ["T1083"]),
   ("lateral_movement", ["T1021"]),
   ("persistence", ["T1053", "T1547"]),
   ("privilege_escalation", ["T1068", "T1055"]),
   ("credential_access", ["T1003", "T1110"]),
   ("exfiltration", ["T1041", "T1567"])]

/-- `_map_to_mitre` (`list(set(...))` modelled as first-occurrence
deduplication). -/
def map_to_mitre (indicator : String) : List String :=
  SecIntel.first_occs []
    ((mitre_mapping.filter
        (fun kw => SecIntel.str_contains (SecIntel.py_lower indicator) kw.1)).flatMap
      (·.2))

/-- One entry of the `threats_detected` list of `analyze_indicators`: either
a known-indicator hit or a suspicious behavioral analysis. -/
inductive DetectedThreat where
  | known (indicator : String) (info : ThreatIndicator)
  | behavioral (b : BehaviorResult)
deriving DecidableEq, Repr

/-- The fields of the `analysis_results` dict of `analyze_indicators` that
carry analysis content (the timestamp and the recommendation strings, which
are presentational, are omitted). -/
structure IndicatorAnalysis where
  indicators_analyzed : ℕ
  threats_detected : List DetectedThreat
  risk_score : ℚ
  mitre_techniques : List String
deriving DecidableEq, Repr

/-- The loop body of `analyze_indicators`: know-indicator lookup and
scoring, behavioral analysis and scoring, MITRE technique set update.  The
accumulator is (threat_score, detected_threats, mitre_techniques). -/
def analyze_indicators_step (db : List (String × ThreatIndicator))
    (re_search : String → String → Bool)
    (acc : ℚ × List DetectedThreat × List String) (indicator : String) :
    ℚ × List DetectedThreat × List String :=
  let acc :=
    match SecIntel.dict_lookup db indicator with
    | some info =>
      (acc.1 + severity_weights info.severity * info.confidence,
       acc.2.1 ++ [DetectedThreat.known indicator info], acc.2.2)
    | none => acc
  let b := analyze_behavior re_search indicator
  let acc :=
    if b.suspicious then (acc.1 + b.score, acc.2.1 ++ [.behavioral b], acc.2.2)
    else acc
  (acc.1, acc.2.1,
   acc.2.2 ++ (map_to_mitre indicator).filter (fun t => t ∉ acc.2.2))

/-- `analyze_indicators`: one pass over the indicator list accumulating
`threat_score`, `detected_threats` and the MITRE technique set, then
`risk_score = min(threat_score / len(indicators), 100) if indicators else 0`. -/
def analyze_indicators (db : List (String × ThreatIndicator))
    (re_search : String → String → Bool) (indicators : List String) :
    IndicatorAnalysis :=
  let acc := indicators.foldl (analyze_indicators_step db re_search) (0, [], [])
  { indicators_analyzed := indicators.length,
    threats_detected := acc.2.1,
    risk_score :=
      if indicators = [] then 0 else min (acc.1 / (indicators.length : ℚ)) 100,
    mitre_techniques := acc.2.2 }

end ThreatAnalyzer

namespace SecIntel

/-! ### Concrete inputs used by the closed theorems below -/

/-- Builder for the burst fixture below. -/
def burst_event (t : ℚ) (dst : String) : NetworkEvent :=
  { timestamp := t,
    source_ip := "10.0.0.1",
    destination_ip := dst,
    source_port := 40000,
    destination_port := 80,
    protocol := "tcp",
    bytes_transferred := 512,
    packets_count := 4,
    duration := 1,
    status := "ok" }

/-- A batch of 11 events from one source to 6 distinct destinations within
10 seconds (the sixth destination repeats to reach 11 events). -/
def burst_events : List NetworkEvent :=
  [burst_event 0 "192.168.0.0", burst_event 1 "192.168.0.1",
   burst_event 2 "192.168.0.2", burst_event 3 "192.168.0.3",
   burst_event 4 "192.168.0.4", burst_event 5 "192.168.0.5",
   burst_event 6 "192.168.0.5", burst_event 7 "192.168.0.5",
   burst_event 8 "192.168.0.5", burst_event 9 "192.168.0.5",
   burst_event 10 "192.168.0.5"]

/-- An event whose `bytes_transferred` and `packets_count` are negative —
malformed input in the sense of the specification.  Its source address
`8.8.8.8` is a public (non-RFC-1918) address, so the real
`ipaddress.ip_address("8.8.8.8").is_private` is `False` and the
`fun _ => some false` instantiation of the `ip_parse` oracle below is the
true library behaviour on it. -/
def bad_event : NetworkEvent :=
  { timestamp := 43200,
    source_ip := "8.8.8.8",
    destination_ip := "9.9.9.9",
    source_port := 1234,
    destination_port := 80,
    protocol := "tcp",
    bytes_transferred := -5,
    packets_count := -3,
    duration := 1,
    status := "ok" }

/-- A cached threat indicator with high confidence. -/
def cached_indicator : ThreatIndicator :=
  { indicator_type := "ip", value := "203.0.113.9", confidence := 9/10,
    threat_types := [], source := "feedA", first_seen := 0, last_seen := 0,
    reputation_score := 1/10 }

/-- A re-ingested indicator for the same value with lower confidence. -/
def reingested_indicator : ThreatIndicator :=
  { indicator_type := "ip", value := "203.0.113.9", confidence := 1/2,
    threat_types := [], source := "feedB", first_seen := 5, last_seen := 5,
    reputation_score := 1/10 }

/-- Engine state whose cache already holds `cached_indicator`. -/
def cache_state : EngineState :=
  { indicators_cache := [("203.0.113.9", cached_indicator)] }

/-- An active incident (status `new`) for entity `10.0.0.7`, vector DDoS. -/
def active_incident : SecurityIncident :=
  { incident_id := "INC-A", threat_level := .high, attack_vector := .ddos,
    title := "t", description := "d", indicators := [],
    affected_assets := ["10.0.0.7"],
    attack_timeline := [{ timestamp := 1000, event := "e" }],
    recommended_actions := [], confidence_score := 7/10,
    created_at := 1000, updated_at := 1000 }

/-- A later detection for the same entity and the same attack vector,
arriving within the correlation window. -/
def matching_incident : SecurityIncident :=
  { incident_id := "INC-B", threat_level := .high, attack_vector := .ddos,
    title := "t2", description := "d2", indicators := [],
    affected_assets := ["10.0.0.7"],
    attack_timeline := [{ timestamp := 1010, event := "e2" }],
    recommended_actions := [], confidence_score := 3/4,
    created_at := 1010, updated_at := 1010 }

/-- Engine state with `active_incident` in the active map. -/
def one_active_state : EngineState :=
  { active_threats := [("INC-A", active_incident)] }

end SecIntel

namespace ThreatAnalyzer

/-- A stored feed indicator of critical severity for value `badguy` (which
matches none of the `_analyze_behavior` regexes, so the all-false `re_search`
oracle is the true `re.search` behaviour on it). -/
def critical_entry : ThreatIndicator :=
  { type := "domain", value := "badguy", confidence := 4/5, source := "feedC",
    first_seen := 0, last_seen := 0, tags := ["threat_feed"],
    severity := "critical" }

/-- An indicator database holding only `critical_entry`. -/
def critical_db : List (String × ThreatIndicator) := [("badguy", critical_entry)]

end ThreatAnalyzer


namespace SecIntel

/-! ### Helper lemmas -/

theorem threshold_medium_eq : threshold_of .medium = 1/2 := rfl

theorem threshold_high_eq : threshold_of .high = 7/10 := rfl

theorem threshold_critical_eq : threshold_of .critical = 17/20 := rfl

theorem threshold_catastrophic_eq : threshold_of .catastrophic = 19/20 := rfl

/-- Closed form of `_calculate_threat_level` with the threshold dict lookups
resolved. -/
theorem calculate_threat_level_eq (c : ℚ) :
    calculate_threat_level c =
      if 19/20 ≤ c then .catastrophic
      else if 17/20 ≤ c then .critical
      else if 7/10 ≤ c then .high
      else if 1/2 ≤ c then .medium
      else .low := by
  simp only [calculate_threat_level, threshold_medium_eq, threshold_high_eq,
    threshold_critical_eq, threshold_catastrophic_eq, ge_iff_le]

end SecIntel

namespace SecIntel

/-- Claim C1, counterexample: at confidence `0.1` (below `0.30`) the code
returns `LOW`, not `MINIMAL`, contradicting the claimed `minimal otherwise`
branch. -/
theorem C1_counterexample :
    calculate_threat_level (1/10) = ThreatLevel.low ∧
      calculate_threat_level (1/10) ≠ ThreatLevel.minimal := by
  have h : calculate_threat_level (1/10) = ThreatLevel.low := by
    rw [calculate_threat_level_eq]; norm_num
  exact ⟨h, by rw [h]; simp⟩

/-- Claim C1, amended: the threat-level mapping returns catastrophic for
`c ≥ 0.95`, critical for `0.85 ≤ c < 0.95`, high for `0.70 ≤ c < 0.85`,
medium for `0.50 ≤ c < 0.70`, and low for every `c < 0.50`; no input yields
the minimal level. -/
theorem C1_threat_level_table (c : ℚ) :
    (19/20 ≤ c → calculate_threat_level c = .catastrophic) ∧
    (17/20 ≤ c → c < 19/20 → calculate_threat_level c = .critical) ∧
    (7/10 ≤ c → c < 17/20 → calculate_threat_level c = .high) ∧
    (1/2 ≤ c → c < 7/10 → calculate_threat_level c = .medium) ∧
    (c < 1/2 → calculate_threat_level c = .low) ∧
    calculate_threat_level c ≠ .minimal := by
  rw [calculate_threat_level_eq]
  split_ifs with h1 h2 h3 h4 <;>
    refine ⟨fun a1 => ?_, fun a1 a2 => ?_, fun a1 a2 => ?_, fun a1 a2 => ?_,
      fun a1 => ?_, by simp⟩ <;>
    first | rfl | linarith

/-- Witness for C1_threat_level_table at concrete confidences. -/
theorem C1_threat_level_table_witness :
    calculate_threat_level (97/100) = .catastrophic ∧
      calculate_threat_level (3/4) = .high ∧
      calculate_threat_level (1/10) = .low :=
  ⟨(C1_threat_level_table (97/100)).1 (by norm_num),
   (C1_threat_level_table (3/4)).2.2.1 (by norm_num) (by norm_num),
   (C1_threat_level_table (1/10)).2.2.2.2.1 (by norm_num)⟩

/-- Claim C8: the confidence-to-threat-level mapping is monotone for the
level ordering minimal < low < medium < high < critical < catastrophic. -/
theorem C8_threat_level_monotone (c1 c2 : ℚ) (h : c2 < c1) :
    (calculate_threat_level c2).rank ≤ (calculate_threat_level c1).rank := by
  rw [calculate_threat_level_eq, calculate_threat_level_eq]
  split_ifs <;> simp only [ThreatLevel.rank] <;>
    first | (exfalso; linarith) | norm_num

/-- Witness for C8_threat_level_monotone at concrete confidences. -/
theorem C8_threat_level_monotone_witness :
    (calculate_threat_level (1/5)).rank ≤ (calculate_threat_level (9/10)).rank :=
  C8_threat_level_monotone (9/10) (1/5) (by norm_num)

end SecIntel

namespace SecIntel

theorem dict_lookup_insert {α : Type} (m : List (String × α)) (k : String)
    (v : α) (k' : String) :
    dict_lookup (dict_insert m k v) k' =
      if k' = k then some v else dict_lookup m k' := by
  induction m with
  | nil => simp [dict_insert, dict_lookup, eq_comm]
  | cons p m ih =>
    obtain ⟨k0, v0⟩ := p
    by_cases h0 : k0 = k
    · subst h0
      simp only [dict_insert, if_pos rfl, dict_lookup]
      by_cases h1 : k0 = k'
      · subst h1; simp
      · simp [h1, Ne.symm h1]
    · simp only [dict_insert, if_neg h0, dict_lookup]
      by_cases h1 : k0 = k'
      · subst h1
        simp [h0]
      · simp [h1, ih]

theorem dict_insert_length_of_fresh {α : Type} (m : List (String × α))
    (k : String) (v : α) (h : ∀ p ∈ m, p.1 ≠ k) :
    (dict_insert m k v).length = m.length + 1 := by
  induction m with
  | nil => rfl
  | cons p m ih =>
    obtain ⟨k0, v0⟩ := p
    have hk0 : k0 ≠ k := h (k0, v0) (List.mem_cons_self _ _)
    simp only [dict_insert, if_neg hk0, List.length_cons]
    rw [ih (fun q hq => h q (List.mem_cons_of_mem _ hq))]

theorem dict_insert_mem_of_ne {α : Type} (m : List (String × α)) (k : String)
    (v : α) (p : String × α) (hp : p ∈ m) (hne : p.1 ≠ k) :
    p ∈ dict_insert m k v := by
  induction m with
  | nil => cases hp
  | cons q m ih =>
    obtain ⟨k0, v0⟩ := q
    by_cases h0 : k0 = k
    · subst h0
      simp only [dict_insert, if_pos rfl]
      rcases List.mem_cons.mp hp with rfl | hp'
      · exact absurd rfl hne
      · exact List.mem_cons_of_mem _ hp'
    · simp only [dict_insert, if_neg h0]
      rcases List.mem_cons.mp hp with rfl | hp'
      · exact List.mem_cons_self _ _
      · exact List.mem_cons_of_mem _ (ih hp')

/-- Claim C2, counterexample: the cache holds `203.0.113.9` at confidence
`0.9`; re-ingesting the same value at confidence `0.5` leaves the stored
confidence at `0.5`, not at `max(0.9, 0.5) = 0.9`. -/
theorem C2_counterexample :
    (dict_lookup (update_threat_intelligence cache_state
        [reingested_indicator]).indicators_cache "203.0.113.9").map
        (·.confidence) = some (1/2) ∧
      cached_indicator.confidence = 9/10 ∧
      (1/2 : ℚ) ≠ max (9/10) (1/2) := by
  refine ⟨?_, rfl, by norm_num⟩
  simp [update_threat_intelligence, cache_state, reingested_indicator,
    cached_indicator, dict_insert, dict_lookup]

/-- Claim C2, amended: re-ingestion overwrites.  After any update batch
whose last indicator for a value is `i`, the cache stores exactly `i`
(confidence included), regardless of what was stored before — the stored
confidence is the newest one, not the maximum. -/
theorem C2_last_write_wins (st : EngineState) (inds : List ThreatIndicator)
    (i : ThreatIndicator) :
    dict_lookup (update_threat_intelligence st (inds ++ [i])).indicators_cache
      i.value = some i := by
  simp only [update_threat_intelligence, List.foldl_append, List.foldl_cons,
    List.foldl_nil]
  simp [dict_lookup_insert]

/-- Claim C3, counterexample: with one active incident (status `new`) for
entity `10.0.0.7` and vector DDoS, processing a fresh detection for the same
entity and vector does not merge: the active-incident count grows from 1 to
2, and the stored matching incident is byte-for-byte unchanged (its timeline
is not extended and its confidence not raised). -/
theorem C3_counterexample :
    one_active_state.active_threats.length = 1 ∧
      (process_security_incident one_active_state
        matching_incident).active_threats.length = 2 ∧
      dict_lookup (process_security_incident one_active_state
        matching_incident).active_threats "INC-A" = some active_incident ∧
      active_incident.status = "new" ∧
      matching_incident.attack_vector = active_incident.attack_vector ∧
      matching_incident.affected_assets = active_incident.affected_assets := by
  refine ⟨rfl, ?_, ?_, rfl, rfl, rfl⟩
  · simp [process_security_incident, one_active_state, matching_incident,
      dict_insert]
  · simp [process_security_incident, one_active_state, matching_incident,
      dict_insert, dict_lookup]

/-- Claim C3, amended: `_process_security_incident` never merges.  Every
processed incident is appended to the history and inserted into the active
map under its own id; when that id is fresh the active count grows by one,
and every previously active incident — matching entity and attack vector or
not — is left completely unchanged. -/
theorem C3_process_never_merges (st : EngineState) (inc : SecurityIncident) :
    (process_security_incident st inc).incidents_history =
        st.incidents_history ++ [inc] ∧
      (process_security_incident st inc).active_threats =
        dict_insert st.active_threats inc.incident_id inc ∧
      ((∀ p ∈ st.active_threats, p.1 ≠ inc.incident_id) →
        (process_security_incident st inc).active_threats.length =
          st.active_threats.length + 1) ∧
      (∀ p ∈ st.active_threats, p.1 ≠ inc.incident_id →
        p ∈ (process_security_incident st inc).active_threats) := by
  refine ⟨rfl, rfl, fun h => ?_, fun p hp hne => ?_⟩
  · exact dict_insert_length_of_fresh _ _ _ h
  · exact dict_insert_mem_of_ne _ _ _ _ hp hne

/-- Witness for C3_process_never_merges on the concrete one-incident state. -/
theorem C3_process_never_merges_witness :
    (process_security_incident one_active_state
        matching_incident).active_threats.length =
      one_active_state.active_threats.length + 1 :=
  (C3_process_never_merges one_active_state matching_incident).2.2.1
    (by intro p hp; simp [one_active_state] at hp; simp [hp, matching_incident])

end SecIntel

namespace SecIntel

theorem foldl_process_network_events (incs : List SecurityIncident) :
    ∀ st : EngineState,
      (incs.foldl process_security_incident st).network_events =
        st.network_events := by
  induction incs with
  | nil => intro st; rfl
  | cons i incs ih => intro st; rw [List.foldl_cons, ih]; rfl

/-- Claim C7, amended: `analyze_network_traffic` performs no input
validation at all.  Whatever the events contain — negative sizes or packet
counts included — every event of the batch is appended to the engine's
event history and analysed like any other; there is no rejection path and
no validation error. -/
theorem C7_no_validation (count_matches : String → String → ℕ)
    (ip_parse : String → Option Bool) (hash_ip : String → ℕ) (now : ℚ)
    (st : EngineState) (events : List NetworkEvent) :
    (analyze_network_traffic count_matches ip_parse hash_ip now st
        events).2.network_events = st.network_events ++ events := by
  simp only [analyze_network_traffic]
  rw [foldl_process_network_events]

/-- Claim C7, counterexample: an event with `bytes_transferred = -5` and
`packets_count = -3` is not rejected: analysis accepts it into the event
history (a state change) and completes normally, returning no incidents —
instead of the claimed validation error with no state change.  (The
`ip_parse` oracle value agrees with `ipaddress.ip_address("8.8.8.8")`,
which is public.) -/
theorem C7_counterexample :
    bad_event.bytes_transferred < 0 ∧ bad_event.packets_count < 0 ∧
      (analyze_network_traffic (fun _ _ => 0) (fun _ => some false)
          (fun _ => 0) 43200 {} [bad_event]).2.network_events = [bad_event] ∧
      (analyze_network_traffic (fun _ _ => 0) (fun _ => some false)
          (fun _ => 0) 43200 {} [bad_event]).1 = [] := by
  have hhour : hour_of (43200 : ℚ) = 12 := by norm_num [hour_of]
  have hdet : detect_behavioral_anomalies (fun _ => some false) 43200
      { network_events := [bad_event] } bad_event = [] := by
    simp only [detect_behavioral_anomalies, bad_event, hhour,
      get_ip_geolocation, get_recent_events_from_ip, last_n, py_startswith]
    norm_num
    decide
  have hchk : check_threat_indicators ({} : ThreatIntelDb) (fun _ _ => 0)
      bad_event = [] := by
    simp [check_threat_indicators, bad_event]
  have hcor : correlate_events 43200 (fun _ => 0) [bad_event] = [] := by
    simp [correlate_events, first_occs, bad_event]
  have hres : analyze_network_traffic (fun _ _ => 0) (fun _ => some false)
      (fun _ => 0) 43200 {} [bad_event] =
      ([], { network_events := [bad_event] }) := by
    simp only [analyze_network_traffic, List.nil_append, List.flatMap_cons,
      List.flatMap_nil, hcor, List.append_nil, List.foldl_nil]
    simp [hchk, hdet]
  exact ⟨by decide, by decide, by rw [hres], by rw [hres]⟩

end SecIntel

namespace SecIntel

theorem mem_first_occs {α : Type} [DecidableEq α] (l : List α) :
    ∀ (seen : List α) (a : α), a ∈ first_occs seen l ↔ a ∈ l ∧ a ∉ seen := by
  induction l with
  | nil => intro seen a; simp [first_occs]
  | cons b l ih =>
    intro seen a
    by_cases hb : b ∈ seen
    · rw [first_occs, if_pos hb, ih]
      by_cases hab : a = b
      · subst hab; simp [hb]
      · simp [hab]
    · rw [first_occs, if_neg hb]
      by_cases hab : a = b
      · subst hab; simp [hb]
      · simp [ih, hab]

theorem nodup_first_occs {α : Type} [DecidableEq α] (l : List α) :
    ∀ seen : List α, (first_occs seen l).Nodup := by
  induction l with
  | nil => intro seen; simp [first_occs]
  | cons b l ih =>
    intro seen
    by_cases hb : b ∈ seen
    · rw [first_occs, if_pos hb]; exact ih seen
    · rw [first_occs, if_neg hb]
      refine List.nodup_cons.mpr ⟨fun hmem => ?_, ih (b :: seen)⟩
      exact ((mem_first_occs l (b :: seen) b).mp hmem).2 (List.mem_cons_self _ _)

theorem first_occs_length_eq_card {α : Type} [DecidableEq α] (l : List α) :
    (first_occs [] l).length = l.toFinset.card := by
  have hnd := nodup_first_occs l []
  have hset : (first_occs [] l).toFinset = l.toFinset := by
    ext a
    simp [List.mem_toFinset, mem_first_occs]
  rw [← List.toFinset_card_of_nodup hnd, hset]

theorem string_append_right_cancel (a b s : String) (h : a ++ s = b ++ s) :
    a = b := by
  have hd := congrArg String.data h
  simp only [String.data_append] at hd
  exact String.ext (List.append_cancel_right hd)

theorem count_filterMap_eq_one {α β : Type} [DecidableEq α] [DecidableEq β]
    (L : List α) (F : α → Option β) (a : α) (b : β) (hN : L.Nodup)
    (ha : a ∈ L) (hFa : F a = some b)
    (hothers : ∀ x ∈ L, x ≠ a → F x ≠ some b) :
    (L.filterMap F).count b = 1 := by
  induction L with
  | nil => cases ha
  | cons x L ih =>
    rw [List.filterMap_cons]
    rcases List.mem_cons.mp ha with rfl | ha'
    · rw [hFa]
      have hb : b ∉ L.filterMap F := by
        intro hmem
        obtain ⟨y, hy, hFy⟩ := List.mem_filterMap.mp hmem
        exact hothers y (List.mem_cons_of_mem _ hy)
          (fun hya => (List.nodup_cons.mp hN).1 (hya ▸ hy)) hFy
      simp [List.count_cons, List.count_eq_zero.mpr hb]
    · have hxa : x ≠ a := fun h => (List.nodup_cons.mp hN).1 (h ▸ ha')
      have hFx := hothers x (List.mem_cons_self x L) hxa
      have ih' := ih (List.nodup_cons.mp hN).2 ha'
        (fun y hy hya => hothers y (List.mem_cons_of_mem _ hy) hya)
      cases hFxv : F x with
      | none => simpa using ih'
      | some c =>
        have hcb : c ≠ b := fun h => hFx (h ▸ hFxv)
        rw [List.count_cons]
        simp only [beq_iff_eq, if_neg hcb, Nat.add_zero]
        exact ih'

theorem coordinated_campaign_tag (now : ℚ) (hash_ip : String → ℕ)
    (ip : String) (g : List NetworkEvent) :
    (create_coordinated_attack_incident now hash_ip ip g).indicators.map
      ThreatIndicator.value = [ip ++ "_campaign"] := rfl

theorem coordinated_incident_ip_inj (now : ℚ) (hash_ip : String → ℕ)
    (ip1 ip2 : String) (g1 g2 : List NetworkEvent)
    (h : create_coordinated_attack_incident now hash_ip ip1 g1 =
      create_coordinated_attack_incident now hash_ip ip2 g2) : ip1 = ip2 := by
  have htag := congrArg (fun inc => inc.indicators.map ThreatIndicator.value) h
  simp only [coordinated_campaign_tag] at htag
  exact string_append_right_cancel _ _ _ (List.singleton_injective htag)

theorem coordinated_confidence (now : ℚ) (hash_ip : String → ℕ)
    (ip : String) (g : List NetworkEvent) :
    (create_coordinated_attack_incident now hash_ip ip g).confidence_score =
      min (8/10) ((g.length : ℚ) / 20) := rfl

theorem coordinated_threat_level (now : ℚ) (hash_ip : String → ℕ)
    (ip : String) (g : List NetworkEvent) :
    (create_coordinated_attack_incident now hash_ip ip g).threat_level =
      calculate_threat_level (min (8/10) ((g.length : ℚ) / 20)) := rfl

end SecIntel

namespace SecIntel

theorem coordinated_attack_vector (now : ℚ) (hash_ip : String → ℕ)
    (ip : String) (g : List NetworkEvent) :
    (create_coordinated_attack_incident now hash_ip ip g).attack_vector =
      if (first_occs [] (g.map (·.destination_ip))).length > 5 then .ddos
      else if (g.map (·.bytes_transferred)).sum > 100 * 1024 * 1024 then
        .data_exfiltration
      else .apt := by
  simp only [create_coordinated_attack_incident]
  split_ifs <;> rfl

theorem calculate_threat_level_below_critical (c : ℚ) (hc : c < 17/20) :
    calculate_threat_level c ≠ .critical ∧
      calculate_threat_level c ≠ .catastrophic := by
  rw [calculate_threat_level_eq]
  split_ifs <;> first | (exfalso; linarith) | (exact ⟨by simp, by simp⟩)

/-- Claim C5: for every batch and every source entity whose group has more
than 10 events spanning less than 5 minutes, `_correlate_events` emits
exactly one incident for that group, with attack vector DDoS when the group
targets more than 5 distinct destinations, else data exfiltration when its
total bytes exceed 100 MB, else APT, and confidence
`min(0.8, eventCount/20)`. -/
theorem C5_correlate_campaign (now : ℚ) (hash_ip : String → ℕ)
    (events : List NetworkEvent) (ip : String)
    (hlen : (events.filter (fun e => e.source_ip = ip)).length > 10)
    (hspan :
      max_list ((events.filter (fun e => e.source_ip = ip)).map (·.timestamp)) -
        min_list ((events.filter (fun e => e.source_ip = ip)).map (·.timestamp))
        < 300) :
    (correlate_events now hash_ip events).count
        (create_coordinated_attack_incident now hash_ip ip
          (events.filter (fun e => e.source_ip = ip))) = 1 ∧
      (create_coordinated_attack_incident now hash_ip ip
          (events.filter (fun e => e.source_ip = ip))).attack_vector =
        (if 5 < ((events.filter (fun e => e.source_ip = ip)).map
              (·.destination_ip)).toFinset.card then AttackVector.ddos
         else if 100 * 1024 * 1024 <
             ((events.filter (fun e => e.source_ip = ip)).map
               (·.bytes_transferred)).sum then AttackVector.data_exfiltration
         else AttackVector.apt) ∧
      (create_coordinated_attack_incident now hash_ip ip
          (events.filter (fun e => e.source_ip = ip))).confidence_score =
        min (8/10)
          (((events.filter (fun e => e.source_ip = ip)).length : ℚ) / 20) := by
  refine ⟨?_, ?_, coordinated_confidence _ _ _ _⟩
  · have hipmem : ip ∈ events.map (·.source_ip) := by
      have hpos : 0 < (events.filter (fun e => e.source_ip = ip)).length := by
        omega
      obtain ⟨e, he⟩ := List.exists_mem_of_length_pos hpos
      have hmf := List.mem_filter.mp he
      exact List.mem_map.mpr ⟨e, hmf.1, by simpa using hmf.2⟩
    rw [correlate_events]
    apply count_filterMap_eq_one _ _ ip
    · exact nodup_first_occs _ _
    · exact (mem_first_occs _ [] ip).mpr ⟨hipmem, by simp⟩
    · dsimp only
      rw [if_pos ⟨hlen, hspan⟩]
    · intro x hx hxip
      dsimp only
      intro hFx
      split_ifs at hFx with hc
      exact hxip (coordinated_incident_ip_inj now hash_ip x ip _ _
        (Option.some.inj hFx))
  · rw [coordinated_attack_vector, first_occs_length_eq_card]

/-- Witness for C5_correlate_campaign on a concrete burst: 11 events from
one source to 6 distinct destinations within 10 seconds yield exactly one
incident, classified DDoS. -/
theorem C5_correlate_campaign_witness :
    (correlate_events 100 (fun _ => 0) burst_events).count
        (create_coordinated_attack_incident 100 (fun _ => 0) "10.0.0.1"
          (burst_events.filter (fun e => e.source_ip = "10.0.0.1"))) = 1 ∧
      (create_coordinated_attack_incident 100 (fun _ => 0) "10.0.0.1"
          (burst_events.filter (fun e => e.source_ip = "10.0.0.1"))).attack_vector
        = AttackVector.ddos := by
  have h := C5_correlate_campaign 100 (fun _ => 0) burst_events "10.0.0.1"
    (by decide)
    (by norm_num [burst_events, burst_event, max_list, min_list, max_def, min_def])
  refine ⟨h.1, ?_⟩
  have hcard : 5 < ((burst_events.filter
      (fun e => e.source_ip = "10.0.0.1")).map (·.destination_ip)).toFinset.card := by
    decide
  rw [h.2.1, if_pos hcard]

/-- Claim C9: every incident the cross-event correlation path produces has
confidence at most 0.8, hence a threat level that is neither critical nor
catastrophic, so it can never satisfy the voice-alert guard of
`_process_security_incident`. -/
theorem C9_correlation_never_voice (now : ℚ) (hash_ip : String → ℕ)
    (events : List NetworkEvent) (inc : SecurityIncident)
    (h : inc ∈ correlate_events now hash_ip events) :
    inc.confidence_score ≤ 8/10 ∧ inc.threat_level ≠ .critical ∧
      inc.threat_level ≠ .catastrophic ∧ voice_alert_triggered inc = false := by
  rw [correlate_events] at h
  obtain ⟨ip, hip, hF⟩ := List.mem_filterMap.mp h
  dsimp only at hF
  split_ifs at hF with hc
  have hinc := Option.some.inj hF
  subst hinc
  have hconf : (create_coordinated_attack_incident now hash_ip ip
      (events.filter (fun e => e.source_ip = ip))).confidence_score ≤ 8/10 := by
    rw [coordinated_confidence]; exact min_le_left _ _
  have hlt : min ((8:ℚ)/10)
      (((events.filter (fun e => e.source_ip = ip)).length : ℚ) / 20) < 17/20 :=
    lt_of_le_of_lt (min_le_left _ _) (by norm_num)
  have hlevel := calculate_threat_level_below_critical _ hlt
  rw [← coordinated_threat_level now hash_ip ip] at hlevel
  refine ⟨hconf, hlevel.1, hlevel.2, ?_⟩
  simp [voice_alert_triggered, hlevel.1, hlevel.2]

/-- Witness for C9_correlation_never_voice on the concrete burst batch. -/
theorem C9_correlation_never_voice_witness :
    (create_coordinated_attack_incident 100 (fun _ => 0) "10.0.0.1"
        (burst_events.filter (fun e => e.source_ip = "10.0.0.1"))).confidence_score
        ≤ 8/10 ∧
      (create_coordinated_attack_incident 100 (fun _ => 0) "10.0.0.1"
        (burst_events.filter (fun e => e.source_ip = "10.0.0.1"))).threat_level
        ≠ .critical ∧
      (create_coordinated_attack_incident 100 (fun _ => 0) "10.0.0.1"
        (burst_events.filter (fun e => e.source_ip = "10.0.0.1"))).threat_level
        ≠ .catastrophic ∧
      voice_alert_triggered (create_coordinated_attack_incident 100 (fun _ => 0)
        "10.0.0.1" (burst_events.filter (fun e => e.source_ip = "10.0.0.1")))
        = false := by
  apply C9_correlation_never_voice 100 (fun _ => 0) burst_events
  rw [correlate_events]
  apply List.mem_filterMap.mpr
  refine ⟨"10.0.0.1", by decide, ?_⟩
  dsimp only
  rw [if_pos]
  constructor
  · decide
  · norm_num [burst_events, burst_event, max_list, min_list, max_def, min_def]

end SecIntel

namespace SecIntel

theorem le_foldl_max (l : List ℚ) : ∀ a : ℚ, a ≤ l.foldl max a := by
  induction l with
  | nil => intro a; exact le_refl a
  | cons x l ih =>
    intro a
    exact le_trans (le_max_left a x) (ih (max a x))

theorem foldl_max_le (l : List ℚ) :
    ∀ a b : ℚ, a ≤ b → (∀ x ∈ l, x ≤ b) → l.foldl max a ≤ b := by
  induction l with
  | nil => intro a b hab _; exact hab
  | cons x l ih =>
    intro a b hab h
    exact ih (max a x) b (max_le hab (h x (List.mem_cons_self _ _)))
      (fun y hy => h y (List.mem_cons_of_mem _ hy))

theorem max_list_nonneg (l : List ℚ) (h : ∀ x ∈ l, 0 ≤ x) : 0 ≤ max_list l := by
  cases l with
  | nil => exact le_refl 0
  | cons a t => exact le_trans (h a (List.mem_cons_self _ _)) (le_foldl_max t a)

theorem check_malicious_patterns_conf_mem (m : String → String → ℕ)
    (text p : String) (c : ℚ) (h : (p, c) ∈ check_malicious_patterns m text) :
    3/10 ≤ c ∧ c ≤ 9/10 := by
  obtain ⟨cp, _, heq⟩ := List.mem_filterMap.mp h
  cases hp2 : cp.2 with
  | nil => rw [hp2] at heq; cases heq
  | cons q rest =>
    rw [hp2] at heq
    have hc : c = min (9/10) (3/10 + (m q text : ℚ) * (2/10)) :=
      ((Prod.ext_iff.mp (Option.some.inj heq)).2).symm
    subst hc
    constructor
    · apply le_min (by norm_num)
      have : (0:ℚ) ≤ (m q text : ℚ) := Nat.cast_nonneg _
      linarith
    · exact min_le_left _ _

theorem intent_risk_map_nonneg (intent : String) : 0 ≤ intent_risk_map intent := by
  unfold intent_risk_map
  split_ifs <;> norm_num

end SecIntel

namespace ThreatAnalyzer

theorem severity_weights_nonneg (s : String) : 0 ≤ severity_weights s := by
  unfold severity_weights
  split_ifs <;> norm_num

theorem dict_lookup_mem {α : Type} (m : List (String × α)) (k : String) (v : α)
    (h : SecIntel.dict_lookup m k = some v) : ∃ k', (k', v) ∈ m := by
  induction m with
  | nil => cases h
  | cons p m ih =>
    obtain ⟨k0, v0⟩ := p
    by_cases h0 : k0 = k
    · rw [SecIntel.dict_lookup, if_pos h0] at h
      exact ⟨k0, Option.some.inj h ▸ List.mem_cons_self _ _⟩
    · rw [SecIntel.dict_lookup, if_neg h0] at h
      obtain ⟨k', hk'⟩ := ih h
      exact ⟨k', List.mem_cons_of_mem _ hk'⟩

theorem analyze_indicators_step_fst_nonneg (db : List (String × ThreatIndicator))
    (re_search : String → String → Bool)
    (hdb : ∀ e ∈ db, 0 ≤ e.2.confidence)
    (acc : ℚ × List DetectedThreat × List String) (indicator : String)
    (h : 0 ≤ acc.1) : 0 ≤ (analyze_indicators_step db re_search acc indicator).1 := by
  have hscore : (0:ℚ) ≤ (analyze_behavior re_search indicator).score := by
    simp only [analyze_behavior]
    positivity
  simp only [analyze_indicators_step]
  cases hlk : SecIntel.dict_lookup db indicator with
  | none =>
    simp only []
    split_ifs
    · exact add_nonneg h hscore
    · exact h
  | some info =>
    have hconf : 0 ≤ info.confidence := by
      obtain ⟨k', hk'⟩ := dict_lookup_mem db indicator info hlk
      exact hdb (k', info) hk'
    have h1 : 0 ≤ acc.1 + severity_weights info.severity * info.confidence :=
      add_nonneg h (mul_nonneg (severity_weights_nonneg _) hconf)
    simp only []
    split_ifs
    · exact add_nonneg h1 hscore
    · exact h1

theorem foldl_analyze_step_fst_nonneg (db : List (String × ThreatIndicator))
    (re_search : String → String → Bool)
    (hdb : ∀ e ∈ db, 0 ≤ e.2.confidence) (inds : List String) :
    ∀ acc : ℚ × List DetectedThreat × List String, 0 ≤ acc.1 →
      0 ≤ (inds.foldl (analyze_indicators_step db re_search) acc).1 := by
  induction inds with
  | nil => intro acc h; exact h
  | cons i inds ih =>
    intro acc h
    exact ih _ (analyze_indicators_step_fst_nonneg db re_search hdb acc i h)

end ThreatAnalyzer

namespace SecIntel

theorem calculate_text_risk_score_bounds (text : String)
    (pats : List (String × ℚ)) (intent : String)
    (hp : ∀ pc ∈ pats, 0 ≤ pc.2) :
    0 ≤ calculate_text_risk_score text pats intent ∧
      calculate_text_risk_score text pats intent ≤ 1 := by
  have hmax : 0 ≤ max_list (pats.map (·.2)) := by
    apply max_list_nonneg
    intro x hx
    obtain ⟨pc, hpc, rfl⟩ := List.mem_map.mp hx
    exact hp pc hpc
  unfold calculate_text_risk_score
  constructor
  · apply le_min (by norm_num)
    refine add_nonneg (add_nonneg ?_ (intent_risk_map_nonneg intent)) ?_
    · split_ifs
      · exact le_refl 0
      · linarith
    · exact le_min (by norm_num) (by positivity)
  · exact min_le_left _ _

/-- Claim C4: evaluation of `_check_malicious_patterns` at the harmless
input `"hello"`, which matches none of the signature regexes (so the
all-zero `count_matches` oracle is the true `re.finditer` behaviour on it).
Because the truthy `finditer` iterator makes the `if matches:` guard always
succeed, the code still reports *every* category, each at confidence 0.3 —
the claimed "pair present iff some pattern matches" is violated in the
code. -/
theorem C4_all_categories_flagged :
    check_malicious_patterns (fun _ _ => 0) "hello" =
      [("sql_injection", 3/10), ("xss", 3/10), ("command_injection", 3/10),
       ("suspicious_activity", 3/10)] := by
  norm_num [check_malicious_patterns, malicious_patterns, min_def,
    List.filterMap_cons]

/-- Claim C6, amended: every pattern-match confidence and the text-analysis
risk score lie in [0, 1]; the indicator-list risk score of
`ThreatAnalyzer.analyze_indicators` lies in [0, 100] (it is a 0-100 scale),
not in [0, 1] as claimed. -/
theorem C6_score_ranges :
    (∀ (m : String → String → ℕ) (text p : String) (c : ℚ),
        (p, c) ∈ check_malicious_patterns m text → 0 ≤ c ∧ c ≤ 1) ∧
      (∀ (m : String → String → ℕ) (text intent : String),
        0 ≤ text_risk_score m text intent ∧
          text_risk_score m text intent ≤ 1) ∧
      (∀ (db : List (String × ThreatAnalyzer.ThreatIndicator))
          (re_search : String → String → Bool) (inds : List String),
        (∀ e ∈ db, 0 ≤ e.2.confidence) →
          0 ≤ (ThreatAnalyzer.analyze_indicators db re_search inds).risk_score ∧
            (ThreatAnalyzer.analyze_indicators db re_search inds).risk_score
              ≤ 100) := by
  refine ⟨?_, ?_, ?_⟩
  · intro m text p c h
    have hb := check_malicious_patterns_conf_mem m text p c h
    exact ⟨by linarith [hb.1], by linarith [hb.2]⟩
  · intro m text intent
    unfold text_risk_score
    apply calculate_text_risk_score_bounds
    intro pc hpc
    obtain ⟨p, c⟩ := pc
    exact le_trans (by norm_num)
      (check_malicious_patterns_conf_mem m text p c hpc).1
  · intro db rs inds hdb
    have hfold := ThreatAnalyzer.foldl_analyze_step_fst_nonneg db rs hdb inds
      (0, [], []) (le_refl 0)
    unfold ThreatAnalyzer.analyze_indicators
    dsimp only
    by_cases hinds : inds = []
    · rw [if_pos hinds]
      norm_num
    · rw [if_neg hinds]
      constructor
      · exact le_min (div_nonneg hfold (Nat.cast_nonneg _)) (by norm_num)
      · exact min_le_right _ _

/-- Witness for C6_score_ranges: a concrete pattern confidence and a
concrete indicator analysis, both inside the proven ranges. -/
theorem C6_score_ranges_witness :
    (0 ≤ (3:ℚ)/10 ∧ (3:ℚ)/10 ≤ 1) ∧
      (0 ≤ (ThreatAnalyzer.analyze_indicators [] (fun _ _ => false)
          ["x"]).risk_score ∧
        (ThreatAnalyzer.analyze_indicators [] (fun _ _ => false)
          ["x"]).risk_score ≤ 100) := by
  constructor
  · refine C6_score_ranges.1 (fun _ _ => 0) "x" "sql_injection" (3/10) ?_
    norm_num [check_malicious_patterns, malicious_patterns, min_def]
  · exact C6_score_ranges.2.2 [] (fun _ _ => false) ["x"] (by simp)

end SecIntel

namespace ThreatAnalyzer

/-- Claim C6, counterexample: one stored critical-severity indicator of
confidence 0.8 yields `risk_score = 8`, outside [0, 1].  (The all-false
`re_search` oracle is the true `re.search` behaviour of the five behavioral
regexes on `"badguy"`.) -/
theorem C6_counterexample :
    (analyze_indicators critical_db (fun _ _ => false) ["badguy"]).risk_score
        = 8 ∧
      ¬ ((8:ℚ) ≤ 1) := by
  constructor
  · simp only [analyze_indicators, analyze_indicators_step, critical_db,
      critical_entry, SecIntel.dict_lookup, analyze_behavior,
      suspicious_patterns, List.foldl_cons, List.foldl_nil]
    simp [severity_weights]
    norm_num [min_def]
  · norm_num

/-- Claim C10: on the empty indicator list `analyze_indicators` returns
risk score 0; the `if indicators else 0` guard keeps the division by the
list length from ever being taken on an empty list. -/
theorem C10_empty_list_risk_zero (db : List (String × ThreatIndicator))
    (re_search : String → String → Bool) :
    (analyze_indicators db re_search []).risk_score = 0 := rfl

end ThreatAnalyzer
